import Mathlib

/-!
Verification of the photometric-stereo dataset generation pipeline.

Shallow embedding of the data-preparation core:
material approximation (`brdf_renderer.py`, `dataset_generator.py`),
light-position sampling (`dataset_generator.py`),
procedural mesh generation (`scene_generator.py`),
the MERL BRDF loader cache (`brdf_renderer.py`), and
the per-dataset orchestration sequence (`dataset_generator.py`).

Python machine floats are modelled as real numbers; the external renderer is
modelled as an oracle of per-call outcomes; file-system writes are modelled as
an explicit artifact list.
-/

namespace PhotometricStereo

/-- Python substring test `needle in hay` on character lists:
true iff `needle` occurs contiguously inside `hay`. -/
def listContains : List Char → List Char → Bool
  | [], needle => needle.isEmpty
  | c :: t, needle => List.isPrefixOf needle (c :: t) || listContains t needle

/-- Python `str.lower()`, modelled per character (the source only lowercases
ASCII material names). Result kept as a character list. -/
def pyLower (s : String) : List Char :=
  s.data.map Char.toLower

/-- Python `needle in hay` where `hay` is an already-lowercased name. -/
def pyIn (needle : String) (hay : List Char) : Bool :=
  listContains hay needle.data

/-- A Mitsuba material dictionary, restricted to the variants the source emits. -/
inductive Material where
  | diffuse (reflectance : ℝ × ℝ × ℝ)
  | roughconductor (alpha : ℝ) (preset : String)
  | roughconductorSpectral (alpha : ℝ) (eta k : ℝ × ℝ × ℝ)

/-- The pure-metal keyword list of
`PhotometricStereoDataGenerator._create_simple_material`
(`dataset_generator.py` line 246). Note it contains neither `metal` nor
`gold`. -/
def pure_metal_keywords : List String :=
  ["steel", "brass", "chrome", "alumin", "silver", "copper", "nickel"]

/-- `PhotometricStereoDataGenerator._create_simple_material`
(`dataset_generator.py` lines 227-355). `fileAlbedo` models the albedo value
extracted by `_load_brdf_albedo` when a BRDF path was supplied and the file
exists (`none` = no path, so the default `0.7` is used). -/
noncomputable def create_simple_material (brdf_name : String) (fileAlbedo : Option ℝ) :
    Material :=
  let brdf_lower := pyLower brdf_name
  let albedo : ℝ := fileAlbedo.getD 0.7
  let is_pure_metal := pure_metal_keywords.any fun kw => pyIn kw brdf_lower
  let is_paint := pyIn "paint" brdf_lower || pyIn "coat" brdf_lower
  if is_pure_metal && !is_paint then
    if pyIn "gold" brdf_lower then .roughconductor 0.1 "Au"
    else if pyIn "silver" brdf_lower then .roughconductor 0.1 "Ag"
    else if pyIn "copper" brdf_lower then .roughconductor 0.1 "Cu"
    else if pyIn "alumin" brdf_lower then .roughconductor 0.1 "Al"
    else if pyIn "chrome" brdf_lower then .roughconductor 0.05 "Cr"
    else if pyIn "brass" brdf_lower then
      .roughconductorSpectral 0.15 (0.618, 0.425, 0.206) (3.580, 2.376, 1.560)
    else if pyIn "nickel" brdf_lower then .roughconductor 0.1 "Ni"
    else .roughconductor 0.1 "Al"
  else
    let base_color : ℝ × ℝ × ℝ :=
      if pyIn "red" brdf_lower || pyIn "brick" brdf_lower then (1.0, 0.2, 0.2)
      else if pyIn "blue" brdf_lower then (0.2, 0.4, 1.0)
      else if pyIn "green" brdf_lower then (0.2, 1.0, 0.3)
      else if pyIn "yellow" brdf_lower then (1.0, 1.0, 0.2)
      else if pyIn "orange" brdf_lower then (1.0, 0.5, 0.1)
      else if pyIn "purple" brdf_lower || pyIn "violet" brdf_lower then (0.8, 0.2, 1.0)
      else if pyIn "pink" brdf_lower then (1.0, 0.4, 0.6)
      else if pyIn "brown" brdf_lower || pyIn "wood" brdf_lower then (0.8, 0.5, 0.3)
      else if pyIn "aventurine" brdf_lower || pyIn "aventurnine" brdf_lower then (0.3, 0.8, 0.5)
      else if pyIn "pearl" brdf_lower then (1.0, 1.0, 0.9)
      else if pyIn "gold" brdf_lower then (1.0, 0.8, 0.2)
      else if pyIn "beige" brdf_lower then (0.9, 0.85, 0.7)
      else if pyIn "white" brdf_lower then (1.0, 1.0, 1.0)
      else if pyIn "black" brdf_lower then (0.3, 0.3, 0.3)
      else (0.8, 0.8, 0.8)
    .diffuse (base_color.1 * albedo, base_color.2.1 * albedo, base_color.2.2 * albedo)

/-- The metallic keyword list of `MitsubaBRDFRenderer._detect_metallic`
(`brdf_renderer.py` line 290). -/
def metallic_keywords : List String :=
  ["metal", "steel", "brass", "chrome", "alumin", "gold", "silver", "copper", "nickel"]

/-- `MitsubaBRDFRenderer._detect_metallic` (`brdf_renderer.py` lines 285-293).
The BRDF data argument is accepted but unused, exactly as in the source. -/
def detect_metallic (brdf_data : List (ℝ × ℝ × ℝ)) (material_name : String) : Bool :=
  let name_lower := pyLower material_name
  metallic_keywords.any fun kw => pyIn kw name_lower

/-- `MitsubaBRDFRenderer._guess_metal_type` (`brdf_renderer.py` lines 295-312). -/
def guess_metal_type (material_name : String) : String :=
  let name_lower := pyLower material_name
  if pyIn "gold" name_lower then "Au"
  else if pyIn "silver" name_lower then "Ag"
  else if pyIn "copper" name_lower then "Cu"
  else if pyIn "alumin" name_lower then "Al"
  else if pyIn "chrome" name_lower then "Cr"
  else "Al"

/-- Arithmetic mean of a list of reals (`np.mean`). -/
noncomputable def listMean (l : List ℝ) : ℝ :=
  l.sum / (l.length : ℝ)

/-- Population standard deviation (`np.std`). -/
noncomputable def listStd (l : List ℝ) : ℝ :=
  Real.sqrt (listMean (l.map fun x => (x - listMean l) ^ 2))

/-- Flatten per-point RGB triples into the full value list (`np.std` over the
whole array in `_estimate_roughness`). -/
def flatten3 (data : List (ℝ × ℝ × ℝ)) : List ℝ :=
  data.flatMap fun p => [p.1, p.2.1, p.2.2]

/-- Per-channel mean over all angular bins (`np.mean(brdf_data, axis=(0,1,2))`
in `_approximate_brdf_material`). -/
noncomputable def mean_reflectance (data : List (ℝ × ℝ × ℝ)) : ℝ × ℝ × ℝ :=
  (listMean (data.map fun p => p.1),
   listMean (data.map fun p => p.2.1),
   listMean (data.map fun p => p.2.2))

/-- `np.clip(x, 0.0, 1.0)`. -/
noncomputable def clip01 (x : ℝ) : ℝ :=
  min (max x 0.0) 1.0

/-- `MitsubaBRDFRenderer._estimate_roughness` (`brdf_renderer.py`
lines 275-283): `np.clip(np.std(brdf_data) * 10, 0.01, 1.0)`. -/
noncomputable def estimate_roughness (data : List (ℝ × ℝ × ℝ)) : ℝ :=
  min (max (listStd (flatten3 data) * 10) 0.01) 1.0

/-- `MitsubaBRDFRenderer._approximate_brdf_material` (`brdf_renderer.py`
lines 224-273), success path. The BRDF table is modelled as the flat list of
its per-bin RGB triples; `max_reflectance` is computed but unused in the
source and omitted. -/
noncomputable def approximate_brdf_material (brdf_data : List (ℝ × ℝ × ℝ))
    (material_name : String) : Material :=
  let m := mean_reflectance brdf_data
  let meanClipped := (clip01 m.1, clip01 m.2.1, clip01 m.2.2)
  let roughness := estimate_roughness brdf_data
  if detect_metallic brdf_data material_name then
    .roughconductor roughness (guess_metal_type material_name)
  else
    .diffuse meanClipped

/-- `MitsubaBRDFRenderer._create_default_material` (`brdf_renderer.py`
lines 214-222). -/
def create_default_material : Material :=
  .diffuse (0.8, 0.8, 0.8)

/-- `MitsubaBRDFRenderer.create_brdf_material` (`brdf_renderer.py`
lines 195-212). `loaded` is the result of `self.brdf_loader.load_brdf`:
`none` when the load failed. -/
noncomputable def create_brdf_material (loaded : Option (List (ℝ × ℝ × ℝ)))
    (material_name : String) : Material :=
  match loaded with
  | none => create_default_material
  | some data => approximate_brdf_material data material_name

/-- `PhotometricStereoDataGenerator.generate_light_positions`
(`dataset_generator.py` lines 59-112). An unknown pattern leaves the
`positions` list empty. -/
noncomputable def generate_light_positions (num_lights : ℕ) (distance : ℝ)
    (pattern : String) : List (ℝ × ℝ × ℝ) :=
  if pattern = "hemisphere" then
    (List.range num_lights).map fun (i : ℕ) =>
      let theta := Real.arccos (1 - ((i : ℝ) + 0.5) / (num_lights : ℝ))
      let phi := Real.pi * (1 + Real.sqrt 5) * (i : ℝ)
      (distance * Real.sin theta * Real.cos phi,
       distance * Real.sin theta * Real.sin phi,
       distance * Real.cos theta)
  else if pattern = "circle" then
    let z := distance * 0.7
    let radius := distance * 0.7
    (List.range num_lights).map fun (i : ℕ) =>
      let angle := 2 * Real.pi * (i : ℝ) / (num_lights : ℝ)
      (radius * Real.cos angle, radius * Real.sin angle, z)
  else if pattern = "grid" then
    let grid_size : ℕ := ⌈Real.sqrt (num_lights : ℝ)⌉₊
    (List.range num_lights).map fun (i : ℕ) =>
      let row := i / grid_size
      let col := i % grid_size
      (((col : ℝ) - (grid_size : ℝ) / 2 + 0.5) * distance / (grid_size : ℝ),
       ((row : ℝ) - (grid_size : ℝ) / 2 + 0.5) * distance / (grid_size : ℝ),
       distance)
  else []

/-- Euclidean norm of a 3-D point. -/
noncomputable def norm3 (p : ℝ × ℝ × ℝ) : ℝ :=
  Real.sqrt (p.1 ^ 2 + p.2.1 ^ 2 + p.2.2 ^ 2)

/-- The hemisphere-pattern position for index `i` (`dataset_generator.py`
lines 78-86): `θ = arccos(1 - (i+0.5)/count)`, `φ = π(1+√5)·i`, position
`distance·(sinθ·cosφ, sinθ·sinφ, cosθ)`. Definitionally equal to the loop
body of `generate_light_positions`. -/
noncomputable def hemispherePoint (count : ℕ) (distance : ℝ) (i : ℕ) : ℝ × ℝ × ℝ :=
  let theta := Real.arccos (1 - ((i : ℝ) + 0.5) / (count : ℝ))
  let phi := Real.pi * (1 + Real.sqrt 5) * (i : ℝ)
  (distance * Real.sin theta * Real.cos phi,
   distance * Real.sin theta * Real.sin phi,
   distance * Real.cos theta)

/-- Vertex loop of `create_sphere_obj` (`scene_generator.py` lines 32-42):
`(subdivisions+1)` latitude rows of `subdivisions*2` longitude samples. -/
noncomputable def sphereVertices (radius : ℝ) (s : ℕ) : List (ℝ × ℝ × ℝ) :=
  (List.range (s + 1)).flatMap fun (i : ℕ) =>
    (List.range (s * 2)).map fun (j : ℕ) =>
      let theta := (i : ℝ) * Real.pi / (s : ℝ)
      let phi := (j : ℝ) * 2 * Real.pi / ((s : ℝ) * 2)
      (radius * Real.sin theta * Real.cos phi,
       radius * Real.cos theta,
       radius * Real.sin theta * Real.sin phi)

/-- One latitude row of the face loop of `create_sphere_obj`
(`scene_generator.py` lines 45-60): pole rows emit one triangle per quad,
interior rows two. Indices are already 1-based as written to the OBJ file. -/
def sphereRowFaces (s i : ℕ) : List (ℕ × ℕ × ℕ) :=
  (List.range (s * 2)).flatMap fun j =>
    let v1 := i * (s * 2) + j
    let v2 := i * (s * 2) + (j + 1) % (s * 2)
    let v3 := (i + 1) * (s * 2) + (j + 1) % (s * 2)
    let v4 := (i + 1) * (s * 2) + j
    if i = 0 then [(v1 + 1, v3 + 1, v4 + 1)]
    else if i = s - 1 then [(v1 + 1, v2 + 1, v4 + 1)]
    else [(v1 + 1, v2 + 1, v4 + 1), (v2 + 1, v3 + 1, v4 + 1)]

/-- Full face list of `create_sphere_obj`. -/
def sphereFaces (s : ℕ) : List (ℕ × ℕ × ℕ) :=
  (List.range s).flatMap fun i => sphereRowFaces s i

/-- `create_sphere_obj` (`scene_generator.py` lines 14-82). The whole body is
wrapped in `try/except`; `none` models a caught exception (printed, `False`
returned, no file written). With `subdivisions = 0` the first vertex-loop
iteration evaluates `0 * math.pi / 0` and raises `ZeroDivisionError`, so no
file is emitted; for every other subdivision count the function succeeds and
writes the mesh (for `subdivisions ≤ -1` both loops are empty, so the written
mesh has no vertices and no faces, which `.toNat = 0` reproduces). -/
noncomputable def create_sphere_obj (radius : ℝ) (subdivisions : ℤ) :
    Option (List (ℝ × ℝ × ℝ) × List (ℕ × ℕ × ℕ)) :=
  if subdivisions = 0 then none
  else some (sphereVertices radius subdivisions.toNat, sphereFaces subdivisions.toNat)

/-- Vertex table of `create_cube_obj` (`scene_generator.py` lines 96-109). -/
noncomputable def cubeVertices (size : ℝ) : List (ℝ × ℝ × ℝ) :=
  let h := size / 2
  [(-h, -h, -h), (h, -h, -h), (h, h, -h), (-h, h, -h),
   (-h, -h, h), (h, -h, h), (h, h, h), (-h, h, h)]

/-- Face table of `create_cube_obj` (`scene_generator.py` lines 112-125),
with the `+1` applied at serialization time (line 140). -/
def cubeFaces : List (ℕ × ℕ × ℕ) :=
  ([(5, 6, 7), (5, 7, 4), (1, 3, 2), (1, 4, 3), (2, 6, 5), (2, 5, 1),
    (4, 7, 3), (4, 3, 0), (3, 7, 6), (3, 6, 2), (0, 1, 5), (0, 5, 4)]
    : List (ℕ × ℕ × ℕ)).map fun f => (f.1 + 1, f.2.1 + 1, f.2.2 + 1)

/-- Vertex loop of `create_plane_obj` (`scene_generator.py` lines 169-175). -/
noncomputable def planeVertices (width height : ℝ) (s : ℕ) : List (ℝ × ℝ × ℝ) :=
  (List.range (s + 1)).flatMap fun (i : ℕ) =>
    (List.range (s + 1)).map fun (j : ℕ) =>
      (((j : ℝ) / (s : ℝ) - 0.5) * width, 0.0, ((i : ℝ) / (s : ℝ) - 0.5) * height)

/-- Face loop of `create_plane_obj` (`scene_generator.py` lines 177-188). -/
def planeFaces (s : ℕ) : List (ℕ × ℕ × ℕ) :=
  (List.range s).flatMap fun i =>
    (List.range s).flatMap fun j =>
      let v1 := i * (s + 1) + j
      let v2 := i * (s + 1) + j + 1
      let v3 := (i + 1) * (s + 1) + j + 1
      let v4 := (i + 1) * (s + 1) + j
      [(v1 + 1, v2 + 1, v4 + 1), (v2 + 1, v3 + 1, v4 + 1)]

/-- Vertex loop of `create_cylinder_obj` (`scene_generator.py` lines 234-246):
for each of the two cap levels, one center vertex followed by the rim ring.
The subdivision count is a Python `int`; a non-positive count leaves the rim
loops empty (`.toNat = 0`), so only the two centers are emitted. -/
noncomputable def cylinderVertices (radius height : ℝ) (subdivisions : ℤ) :
    List (ℝ × ℝ × ℝ) :=
  ([0, 1] : List ℕ).flatMap fun level =>
    let y := if level = 0 then -(height / 2) else height / 2
    ((0, y, 0) : ℝ × ℝ × ℝ) ::
      (List.range subdivisions.toNat).map fun (i : ℕ) =>
        let angle := 2 * Real.pi * (i : ℝ) / (subdivisions : ℝ)
        (radius * Real.cos angle, y, radius * Real.sin angle)

/-- Face loops of `create_cylinder_obj` (`scene_generator.py` lines 248-275):
bottom-cap fan, top-cap fan, then the side wall quads split in two. Indices
are already 1-based. -/
def cylinderFaces (subdivisions : ℤ) : List (ℕ × ℕ × ℕ) :=
  let n := subdivisions.toNat
  let bottom := (List.range n).map fun i =>
    (0 + 1, (1 + (i + 1) % n) + 1, (1 + i) + 1)
  let top := (List.range n).map fun i =>
    ((n + 1) + 1, (n + 1 + 1 + i) + 1, (n + 1 + 1 + (i + 1) % n) + 1)
  let side := (List.range n).flatMap fun i =>
    let v1 := 1 + i
    let v2 := 1 + (i + 1) % n
    let v3 := n + 1 + 1 + (i + 1) % n
    let v4 := n + 1 + 1 + i
    [(v1 + 1, v2 + 1, v4 + 1), (v2 + 1, v3 + 1, v4 + 1)]
  bottom ++ top ++ side

/-- `create_cylinder_obj` (`scene_generator.py` lines 212-297). No executed
statement can raise for any parameter value (the rim loops guard the
divisions and modulo operations), so the function always succeeds and always
writes a mesh file. -/
noncomputable def create_cylinder_obj (radius height : ℝ) (subdivisions : ℤ) :
    Option (List (ℝ × ℝ × ℝ) × List (ℕ × ℕ × ℕ)) :=
  some (cylinderVertices radius height subdivisions, cylinderFaces subdivisions)

/-- Vertex loop of `create_torus_obj` (`scene_generator.py` lines 321-333). -/
noncomputable def torusVertices (R r : ℝ) (M m : ℕ) : List (ℝ × ℝ × ℝ) :=
  (List.range M).flatMap fun (i : ℕ) =>
    (List.range m).map fun (j : ℕ) =>
      let theta := 2 * Real.pi * (i : ℝ) / (M : ℝ)
      let phi := 2 * Real.pi * (j : ℝ) / (m : ℝ)
      ((R + r * Real.cos phi) * Real.cos theta,
       r * Real.sin phi,
       (R + r * Real.cos phi) * Real.sin theta)

/-- Face loop of `create_torus_obj` (`scene_generator.py` lines 336-346):
wraps modulo both subdivision counts. Indices are already 1-based. -/
def torusFaces (M m : ℕ) : List (ℕ × ℕ × ℕ) :=
  (List.range M).flatMap fun i =>
    (List.range m).flatMap fun j =>
      let v1 := i * m + j
      let v2 := i * m + (j + 1) % m
      let v3 := ((i + 1) % M) * m + (j + 1) % m
      let v4 := ((i + 1) % M) * m + j
      [(v1 + 1, v2 + 1, v4 + 1), (v2 + 1, v3 + 1, v4 + 1)]

/-- A 1-based face index triple lies within the emitted vertex table. -/
def faceIdxOk (vertexCount : ℕ) (f : ℕ × ℕ × ℕ) : Prop :=
  1 ≤ f.1 ∧ f.1 ≤ vertexCount ∧ 1 ≤ f.2.1 ∧ f.2.1 ≤ vertexCount ∧
    1 ≤ f.2.2 ∧ f.2.2 ≤ vertexCount

instance (n : ℕ) (f : ℕ × ℕ × ℕ) : Decidable (faceIdxOk n f) := by
  unfold faceIdxOk; infer_instance

/-- A MERL BRDF file as decoded by the declared binary layout: the three
leading 32-bit dimensions and the payload of per-bin RGB double triples. -/
structure BRDFFile where
  dims : ℕ × ℕ × ℕ
  points : List (ℝ × ℝ × ℝ)

/-- The per-channel MERL scale factors applied at load time
(`brdf_renderer.py` lines 77-82), followed by the clamp to non-negative. -/
noncomputable def scaleClampPoint (p : ℝ × ℝ × ℝ) : ℝ × ℝ × ℝ :=
  (max (p.1 * (1.0 / 1500.0)) 0.0,
   max (p.2.1 * (1.15 / 1500.0)) 0.0,
   max (p.2.2 * (1.66 / 1500.0)) 0.0)

/-- The parse step of `MERLBRDFLoader.load_brdf` (`brdf_renderer.py`
lines 57-82): reads `dims[0]*dims[1]*dims[2]` RGB triples, scales each channel
and clamps to `≥ 0`. `none` models the `struct.unpack`/`reshape` exception
raised when the file is shorter than the declared size (caught at line 89,
turning into a `None` return). The dimension-mismatch warning at line 67 does
not affect the result. -/
noncomputable def parse_brdf (f : BRDFFile) : Option (List (ℝ × ℝ × ℝ)) :=
  let total := f.dims.1 * f.dims.2.1 * f.dims.2.2
  if total ≤ f.points.length then
    some ((f.points.take total).map scaleClampPoint)
  else none

/-- The loader cache `MERLBRDFLoader.brdf_cache`, keyed by the path string. -/
abbrev BRDFCache := List (String × List (ℝ × ℝ × ℝ))

/-- Outcome of one `load_brdf` call: the returned table, the cache afterwards,
and whether the call touched the file system at all. -/
structure LoadResult where
  result : Option (List (ℝ × ℝ × ℝ))
  cache : BRDFCache
  readFile : Bool

/-- `MERLBRDFLoader.load_brdf` (`brdf_renderer.py` lines 43-91). The file
system is an oracle from path to decoded file (`none` = missing/unreadable,
which raises `IOError`, caught at line 89). A cache hit returns the stored
array without touching the file; a failed load leaves the cache unchanged. -/
noncomputable def load_brdf (fs : String → Option BRDFFile) (brdf_path : String)
    (cache : BRDFCache) : LoadResult :=
  match cache.lookup brdf_path with
  | some data => ⟨some data, cache, false⟩
  | none =>
    match fs brdf_path with
    | none => ⟨none, cache, true⟩
    | some file =>
      match parse_brdf file with
      | none => ⟨none, cache, true⟩
      | some data => ⟨some data, (brdf_path, data) :: cache, true⟩

/-- `PhotometricStereoDataGenerator._load_brdf_albedo` (`dataset_generator.py`
lines 176-225). `midData` models the mid-angle R-channel slice
`brdf_data[start:end, start:end, :, 0]` after the clamp to `≥ 0`, flattened;
`none` models any exception while opening or decoding the file (caught at
line 223, returning the fallback `0.7`). The mean is log-scaled via
`np.log10(mean+1) / 5.0` and clipped to `[0.5, 0.9]` when positive, else the
branch yields `0.7`. -/
noncomputable def load_brdf_albedo (midData : Option (List ℝ)) : ℝ :=
  match midData with
  | none => 0.7
  | some l =>
    let mean_albedo := listMean l
    if 0 < mean_albedo then
      min (max (Real.logb 10 (mean_albedo + 1) / 5.0) 0.5) 0.9
    else 0.7

/-- The on-disk artifacts `generate_single_dataset` can produce for one
dataset directory. -/
inductive Artifact where
  | config
  | lightImage (i : ℕ)
  | normalMap
  deriving DecidableEq

/-- `PhotometricStereoDataGenerator.render_light_images`
(`dataset_generator.py` lines 357-459): renders lights in order starting at
1-based index `startIdx`; each successful render writes its image, the first
failure aborts the loop and returns `False`. The external renderer is modelled
by the per-light outcome list. Returns the written images (in order) and the
success flag. -/
def render_light_images (outcomes : List Bool) (startIdx : ℕ) :
    List Artifact × Bool :=
  match outcomes with
  | [] => ([], true)
  | ok :: rest =>
    if ok then
      let r := render_light_images rest (startIdx + 1)
      (Artifact.lightImage startIdx :: r.1, r.2)
    else ([], false)

/-- `PhotometricStereoDataGenerator.generate_single_dataset`
(`dataset_generator.py` lines 545-647): after directory set-up it builds the
configuration and writes `config.yaml` (lines 610-614) BEFORE any rendering,
then renders the light images (line 617) and the normal map (line 634),
returning `False` on the first failure. Returns the artifacts written to the
dataset directory, in write order, and the success flag. -/
def generate_single_dataset (lightOutcomes : List Bool) (normalOutcome : Bool) :
    List Artifact × Bool :=
  let r := render_light_images lightOutcomes 1
  let files := Artifact.config :: r.1
  if r.2 then
    if normalOutcome then (files ++ [Artifact.normalMap], true)
    else (files, false)
  else (files, false)

/-! Helper lemmas. -/

theorem length_flatMap {α β : Type} (l : List α) (f : α → List β) :
    (l.flatMap f).length = (l.map fun a => (f a).length).sum := by
  induction l with
  | nil => rfl
  | cons a t ih => simp [List.flatMap_cons, ih]

theorem length_flatMap_const {α β : Type} (l : List α) (f : α → List β) (k : ℕ)
    (h : ∀ a ∈ l, (f a).length = k) :
    (l.flatMap f).length = l.length * k := by
  induction l with
  | nil => simp
  | cons a t ih =>
    simp only [List.flatMap_cons, List.length_append, List.length_cons]
    rw [h a (List.mem_cons_self a t), ih fun b hb => h b (List.mem_cons_of_mem a hb)]
    ring

theorem sum_map_range (n : ℕ) (g : ℕ → ℕ) :
    ((List.range n).map g).sum = ∑ i ∈ Finset.range n, g i := by
  induction n with
  | zero => rfl
  | succ k ih =>
    rw [List.range_succ, List.map_append, List.sum_append, Finset.sum_range_succ, ih]
    rfl

theorem quad_index_le (a M n b : ℕ) (ha : a < M) (hb : b < n) :
    a * n + b + 1 ≤ M * n := by
  have h2 : a * n + n = (a + 1) * n := by ring
  have h3 : (a + 1) * n ≤ M * n := Nat.mul_le_mul_right n ha
  omega

theorem render_light_images_success (outcomes : List Bool) (startIdx : ℕ) :
    (render_light_images outcomes startIdx).2 = outcomes.all id := by
  induction outcomes generalizing startIdx with
  | nil => rfl
  | cons b t ih => cases b <;> simp [render_light_images, ih]

theorem sphereRowFaces_length (s i : ℕ) :
    (sphereRowFaces s i).length = if i = 0 ∨ i = s - 1 then s * 2 else s * 2 * 2 := by
  unfold sphereRowFaces
  by_cases h0 : i = 0
  · rw [if_pos (Or.inl h0)]
    rw [length_flatMap_const _ _ 1 fun j _ => by simp [h0]]
    rw [List.length_range]
    omega
  · by_cases h1 : i = s - 1
    · subst h1
      rw [if_pos (Or.inr rfl)]
      rw [length_flatMap_const _ _ 1 fun j _ => by simp [h0]]
      rw [List.length_range]
      omega
    · rw [if_neg (by tauto)]
      rw [length_flatMap_const _ _ 2 fun j _ => by simp [h0, h1]]
      rw [List.length_range]

theorem sphereVertices_length (radius : ℝ) (s : ℕ) :
    (sphereVertices radius s).length = (s + 1) * (s * 2) := by
  unfold sphereVertices
  rw [length_flatMap_const _ _ (s * 2) fun i _ => by
    rw [List.length_map, List.length_range]]
  rw [List.length_range]

theorem planeVertices_length (width height : ℝ) (s : ℕ) :
    (planeVertices width height s).length = (s + 1) * (s + 1) := by
  unfold planeVertices
  rw [length_flatMap_const _ _ (s + 1) fun i _ => by
    rw [List.length_map, List.length_range]]
  rw [List.length_range]

theorem cylinderVertices_length (radius height : ℝ) (subdivisions : ℤ) :
    (cylinderVertices radius height subdivisions).length =
      2 * (subdivisions.toNat + 1) := by
  unfold cylinderVertices
  rw [length_flatMap_const _ _ (subdivisions.toNat + 1) fun level _ => by
    simp]
  rfl

theorem torusVertices_length (R r : ℝ) (M m : ℕ) :
    (torusVertices R r M m).length = M * m := by
  unfold torusVertices
  rw [length_flatMap_const _ _ m fun i _ => by
    rw [List.length_map, List.length_range]]
  rw [List.length_range]

/-! Claim theorems. -/

/-- Claim C1, counterexample: a run of `generate_single_dataset` whose second
light render fails still has `config.yaml` among its written artifacts (the
configuration is written at `dataset_generator.py` lines 610-614, before any
render), contradicting the claim that no configuration artifact exists after
a failed run. `light_1.png` is present and the run reports failure. -/
theorem config_survives_failed_render :
    (generate_single_dataset [true, false] true).2 = false ∧
    Artifact.config ∈ (generate_single_dataset [true, false] true).1 ∧
    Artifact.lightImage 1 ∈ (generate_single_dataset [true, false] true).1 := by
  decide

/-- Claim C1, amended: `generate_single_dataset` writes `config.yaml`
unconditionally before any render step, so the configuration artifact is
present after every run, including failed ones; the run reports success
exactly when every light render and the normal-map render succeeded.
Presence of `config.yaml` therefore does not indicate completion. -/
theorem config_always_written_success_iff (lightOutcomes : List Bool)
    (normalOutcome : Bool) :
    Artifact.config ∈ (generate_single_dataset lightOutcomes normalOutcome).1 ∧
    ((generate_single_dataset lightOutcomes normalOutcome).2 = true ↔
      lightOutcomes.all id = true ∧ normalOutcome = true) := by
  have hsnd := render_light_images_success lightOutcomes 1
  unfold generate_single_dataset
  cases hb : (render_light_images lightOutcomes 1).2 <;> cases normalOutcome <;>
    simp_all

/-- Claim C2, counterexample: `generate_light_positions` called with the
unknown pattern `"spiral"` does not fail with any error; it silently returns
the empty list (the `positions = []` initialisation is returned unchanged,
`dataset_generator.py` lines 74 and 112). -/
theorem unknown_pattern_returns_empty :
    generate_light_positions 4 1 "spiral" = [] := rfl

/-- Claim C2, amended: for every count and distance, a pattern that is not
one of `"hemisphere"`, `"circle"`, `"grid"` makes `generate_light_positions`
silently return an empty position list; no `ConfigError` (or any other
exception) is raised. -/
theorem unknown_pattern_silently_empty (num_lights : ℕ) (distance : ℝ)
    (pattern : String) (h1 : pattern ≠ "hemisphere") (h2 : pattern ≠ "circle")
    (h3 : pattern ≠ "grid") :
    generate_light_positions num_lights distance pattern = [] := by
  simp [generate_light_positions, h1, h2, h3]

/-- Witness for the amended claim C2 at the concrete pattern `"spiral"`. -/
theorem unknown_pattern_silently_empty_witness :
    ("spiral" ≠ "hemisphere" ∧ "spiral" ≠ "circle" ∧ "spiral" ≠ "grid") ∧
    generate_light_positions 4 1 "spiral" = [] :=
  ⟨⟨by decide, by decide, by decide⟩,
    unknown_pattern_silently_empty 4 1 "spiral" (by decide) (by decide) (by decide)⟩

/-- Claim C10: `_load_brdf_albedo` always returns a value in `[0.5, 0.9]`:
a positive mid-angle mean is log-scaled and clipped into `[0.5, 0.9]`, a
non-positive mean takes the `else` branch worth `0.7`, and any exception
while reading or decoding is caught and yields the fallback `0.7`. -/
theorem load_brdf_albedo_in_range (midData : Option (List ℝ)) :
    0.5 ≤ load_brdf_albedo midData ∧ load_brdf_albedo midData ≤ 0.9 := by
  cases midData with
  | none =>
    unfold load_brdf_albedo
    norm_num
  | some l =>
    unfold load_brdf_albedo
    simp only
    split_ifs with h
    · exact ⟨le_min (le_max_right _ _) (by norm_num), min_le_right _ _⟩
    · norm_num

/-- Claim C7: the hemisphere pattern returns exactly `count` positions; the
`i`-th position is `distance·(sinθ·cosφ, sinθ·sinφ, cosθ)` with
`θ = arccos(1-(i+0.5)/count)` and `φ = π(1+√5)·i`, and its Euclidean norm
equals `distance` exactly in the real-number model. -/
theorem hemisphere_positions_spec (count : ℕ) (distance : ℝ)
    (hc : 1 ≤ count) (hd : 0 < distance) :
    (generate_light_positions count distance "hemisphere").length = count ∧
    ∀ i, i < count →
      (generate_light_positions count distance "hemisphere").getD i (0, 0, 0) =
        hemispherePoint count distance i ∧
      norm3 (hemispherePoint count distance i) = distance := by
  have hmap : generate_light_positions count distance "hemisphere" =
      (List.range count).map (hemispherePoint count distance) := rfl
  have key : ∀ θ φ : ℝ,
      norm3 (distance * Real.sin θ * Real.cos φ,
        distance * Real.sin θ * Real.sin φ, distance * Real.cos θ) = distance := by
    intro θ φ
    show Real.sqrt ((distance * Real.sin θ * Real.cos φ) ^ 2 +
      (distance * Real.sin θ * Real.sin φ) ^ 2 + (distance * Real.cos θ) ^ 2) = distance
    have hs := Real.sin_sq_add_cos_sq θ
    have hp := Real.sin_sq_add_cos_sq φ
    have h1 : (distance * Real.sin θ * Real.cos φ) ^ 2 +
        (distance * Real.sin θ * Real.sin φ) ^ 2 + (distance * Real.cos θ) ^ 2 =
        distance ^ 2 := by
      linear_combination (distance ^ 2 * Real.sin θ ^ 2) * hp + distance ^ 2 * hs
    rw [h1]
    exact Real.sqrt_sq hd.le
  refine ⟨by rw [hmap, List.length_map, List.length_range], fun i hi => ⟨?_, key _ _⟩⟩
  rw [hmap, List.getD_eq_getElem?_getD]
  simp [List.getElem?_map, List.getElem?_range hi]

/-- Witness for claim C7 at `count = 4`, `distance = 1`. -/
theorem hemisphere_positions_spec_witness :
    (1 ≤ 4 ∧ (0 : ℝ) < 1) ∧
    ((generate_light_positions 4 1 "hemisphere").length = 4 ∧
      ∀ i, i < 4 →
        (generate_light_positions 4 1 "hemisphere").getD i (0, 0, 0) =
          hemispherePoint 4 1 i ∧
        norm3 (hemispherePoint 4 1 i) = 1) :=
  ⟨⟨by norm_num, by norm_num⟩,
    hemisphere_positions_spec 4 1 (by norm_num) (by norm_num)⟩

/-- Claim C6, counterexample: the dataset-generation material approximation
`_create_simple_material`, invoked with no BRDF table available, does not
return the neutral diffuse `(0.8, 0.8, 0.8)`: for the name `"anything"` it
scales the neutral base colour by the default albedo `0.7`, yielding
`(0.56, 0.56, 0.56)`. -/
theorem simple_material_no_table_not_neutral :
    create_simple_material "anything" none ≠ Material.diffuse (0.8, 0.8, 0.8) := by
  have h : create_simple_material "anything" none =
      Material.diffuse (0.8 * 0.7, 0.8 * 0.7, 0.8 * 0.7) := rfl
  rw [h]
  intro heq
  injection heq with h2
  have h3 := congrArg Prod.fst h2
  norm_num at h3

/-- Claim C6, amended: only the renderer-variant `create_brdf_material`
returns the default neutral diffuse `(0.8, 0.8, 0.8)` when the table failed
to load (for every material name); the dataset-generator variant
`_create_simple_material` with no BRDF file instead multiplies the
name-derived base colour by the default albedo `0.7`, giving
`(0.56, 0.56, 0.56)` for a name matching no colour keyword. -/
theorem no_table_material_defaults :
    (∀ material_name : String,
      create_brdf_material none material_name = Material.diffuse (0.8, 0.8, 0.8)) ∧
    create_simple_material "anything" none = Material.diffuse (0.56, 0.56, 0.56) := by
  constructor
  · intro material_name
    rfl
  · have h : create_simple_material "anything" none =
        Material.diffuse (0.8 * 0.7, 0.8 * 0.7, 0.8 * 0.7) := rfl
    rw [h]
    norm_num

/-- Claim C4: for every loaded BRDF table and every material name whose
lowercased form contains `"gold"`, `_detect_metallic` classifies it as
metallic through the fixed keyword list (`metal, steel, brass, chrome,
alumin, gold, silver, copper, nickel`) and `_approximate_brdf_material`
returns a rough-conductor material whose preset is `Au`. -/
theorem gold_name_gives_Au (brdf_data : List (ℝ × ℝ × ℝ)) (material_name : String)
    (h : pyIn "gold" (pyLower material_name) = true) :
    detect_metallic brdf_data material_name = true ∧
    approximate_brdf_material brdf_data material_name =
      Material.roughconductor (estimate_roughness brdf_data) "Au" := by
  have hdet : detect_metallic brdf_data material_name = true := by
    unfold detect_metallic
    simp only [List.any_eq_true]
    exact ⟨"gold", by simp [metallic_keywords], h⟩
  refine ⟨hdet, ?_⟩
  have hau : guess_metal_type material_name = "Au" := by
    unfold guess_metal_type
    simp [h]
  unfold approximate_brdf_material
  simp [hdet, hau]

/-- Witness for claim C4 at the table `[(1,1,1)]` and the name
`"gold_ring"`. -/
theorem gold_name_gives_Au_witness :
    pyIn "gold" (pyLower "gold_ring") = true ∧
    (detect_metallic [((1 : ℝ), 1, 1)] "gold_ring" = true ∧
      approximate_brdf_material [((1 : ℝ), 1, 1)] "gold_ring" =
        Material.roughconductor (estimate_roughness [((1 : ℝ), 1, 1)]) "Au") :=
  ⟨by decide, gold_name_gives_Au [((1 : ℝ), 1, 1)] "gold_ring" (by decide)⟩

/-- Claim C9: for a valid BRDF file (one whose payload covers the declared
`dims[0]*dims[1]*dims[2]` triples), loading the same path twice through the
same loader is idempotent: the first call parses the file, applying the
per-channel scales `1/1500, 1.15/1500, 1.66/1500` and the clamp to `≥ 0`;
the second call returns the identical cached array, does not touch the file
system, and leaves the cache unchanged. -/
theorem load_brdf_idempotent_cached (fs : String → Option BRDFFile)
    (brdf_path : String) (cache₀ : BRDFCache) (file : BRDFFile)
    (data : List (ℝ × ℝ × ℝ))
    (hfresh : cache₀.lookup brdf_path = none)
    (hfile : fs brdf_path = some file)
    (hparse : parse_brdf file = some data) :
    (load_brdf fs brdf_path cache₀).result = some data ∧
    data = (file.points.take
      (file.dims.1 * file.dims.2.1 * file.dims.2.2)).map scaleClampPoint ∧
    (load_brdf fs brdf_path (load_brdf fs brdf_path cache₀).cache).result =
      (load_brdf fs brdf_path cache₀).result ∧
    (load_brdf fs brdf_path (load_brdf fs brdf_path cache₀).cache).readFile = false ∧
    (load_brdf fs brdf_path (load_brdf fs brdf_path cache₀).cache).cache =
      (load_brdf fs brdf_path cache₀).cache := by
  have h1 : load_brdf fs brdf_path cache₀ =
      ⟨some data, (brdf_path, data) :: cache₀, true⟩ := by
    simp only [load_brdf, hfresh, hfile, hparse]
  have h2 : data = (file.points.take
      (file.dims.1 * file.dims.2.1 * file.dims.2.2)).map scaleClampPoint := by
    unfold parse_brdf at hparse
    by_cases hle :
        file.dims.1 * file.dims.2.1 * file.dims.2.2 ≤ file.points.length
    · simp only [hle, if_true] at hparse
      exact (Option.some.inj hparse).symm
    · simp only [hle, if_false] at hparse
      exact absurd hparse (by simp)
  have h3 : List.lookup brdf_path ((brdf_path, data) :: cache₀) = some data := by
    simp [List.lookup]
  have h4 : load_brdf fs brdf_path ((brdf_path, data) :: cache₀) =
      ⟨some data, (brdf_path, data) :: cache₀, false⟩ := by
    simp only [load_brdf, h3]
  refine ⟨?_, h2, ?_, ?_, ?_⟩ <;> simp [h1, h4]

/-- Witness for claim C9 on a one-point BRDF file at path `"a.binary"`. -/
theorem load_brdf_idempotent_cached_witness :
    (List.lookup "a.binary" ([] : BRDFCache) = none ∧
      (fun p => if p = "a.binary"
        then some (BRDFFile.mk (1, 1, 1) [((1 : ℝ), 2, 3)]) else none) "a.binary" =
        some (BRDFFile.mk (1, 1, 1) [((1 : ℝ), 2, 3)]) ∧
      parse_brdf (BRDFFile.mk (1, 1, 1) [((1 : ℝ), 2, 3)]) =
        some [scaleClampPoint ((1 : ℝ), 2, 3)]) ∧
    ((load_brdf (fun p => if p = "a.binary"
        then some (BRDFFile.mk (1, 1, 1) [((1 : ℝ), 2, 3)]) else none)
        "a.binary" []).result = some [scaleClampPoint ((1 : ℝ), 2, 3)] ∧
      [scaleClampPoint ((1 : ℝ), 2, 3)] =
        ((BRDFFile.mk (1, 1, 1) [((1 : ℝ), 2, 3)]).points.take
          ((BRDFFile.mk (1, 1, 1) [((1 : ℝ), 2, 3)]).dims.1 *
            (BRDFFile.mk (1, 1, 1) [((1 : ℝ), 2, 3)]).dims.2.1 *
            (BRDFFile.mk (1, 1, 1) [((1 : ℝ), 2, 3)]).dims.2.2)).map scaleClampPoint ∧
      (load_brdf (fun p => if p = "a.binary"
          then some (BRDFFile.mk (1, 1, 1) [((1 : ℝ), 2, 3)]) else none) "a.binary"
        (load_brdf (fun p => if p = "a.binary"
          then some (BRDFFile.mk (1, 1, 1) [((1 : ℝ), 2, 3)]) else none)
          "a.binary" []).cache).result =
        (load_brdf (fun p => if p = "a.binary"
          then some (BRDFFile.mk (1, 1, 1) [((1 : ℝ), 2, 3)]) else none)
          "a.binary" []).result ∧
      (load_brdf (fun p => if p = "a.binary"
          then some (BRDFFile.mk (1, 1, 1) [((1 : ℝ), 2, 3)]) else none) "a.binary"
        (load_brdf (fun p => if p = "a.binary"
          then some (BRDFFile.mk (1, 1, 1) [((1 : ℝ), 2, 3)]) else none)
          "a.binary" []).cache).readFile = false ∧
      (load_brdf (fun p => if p = "a.binary"
          then some (BRDFFile.mk (1, 1, 1) [((1 : ℝ), 2, 3)]) else none) "a.binary"
        (load_brdf (fun p => if p = "a.binary"
          then some (BRDFFile.mk (1, 1, 1) [((1 : ℝ), 2, 3)]) else none)
          "a.binary" []).cache).cache =
        (load_brdf (fun p => if p = "a.binary"
          then some (BRDFFile.mk (1, 1, 1) [((1 : ℝ), 2, 3)]) else none)
          "a.binary" []).cache) :=
  ⟨⟨rfl, rfl, rfl⟩,
    load_brdf_idempotent_cached _ "a.binary" [] _ _ rfl rfl rfl⟩

/-- Claim C3, counterexample: at `subdivisions = 2` the sphere generator
emits 8 triangles (both rows are pole rows of `2·2 = 4` quads, one triangle
each), but the claimed formula `2·s·(2·s-2) + 2·(2·s)` gives `16`. -/
theorem sphere_face_formula_fails :
    (sphereFaces 2).length ≠ 2 * 2 * (2 * 2 - 2) + 2 * (2 * 2) := by decide

/-- Claim C3, amended: for `subdivisions ≥ 2` the sphere mesh has
`2·(2·subdivisions)·(subdivisions-2) + 2·(2·subdivisions)` triangles (the
`subdivisions-2` interior rows contribute two triangles per quad, the two
pole rows one per quad); the claimed formula overcounts by adding the pole
term `2·(2·subdivisions)` on top of a first term that already equals the
whole count. -/
theorem sphere_face_count (s : ℕ) (hs : 2 ≤ s) :
    (sphereFaces s).length = 2 * (s * 2) * (s - 2) + 2 * (s * 2) ∧
    (sphereRowFaces s 0).length = s * 2 ∧
    (sphereRowFaces s (s - 1)).length = s * 2 ∧
    ∀ i, 0 < i → i < s - 1 → (sphereRowFaces s i).length = 2 * (s * 2) := by
  have hrow0 : (sphereRowFaces s 0).length = s * 2 := by
    rw [sphereRowFaces_length, if_pos (Or.inl rfl)]
  have hrowtop : (sphereRowFaces s (s - 1)).length = s * 2 := by
    rw [sphereRowFaces_length, if_pos (Or.inr rfl)]
  have hrowmid : ∀ i, 0 < i → i < s - 1 → (sphereRowFaces s i).length = 2 * (s * 2) := by
    intro i hi0 hitop
    rw [sphereRowFaces_length, if_neg (by omega)]
    ring
  refine ⟨?_, hrow0, hrowtop, hrowmid⟩
  have htot : (sphereFaces s).length =
      ∑ i ∈ Finset.range s, (sphereRowFaces s i).length := by
    unfold sphereFaces
    rw [length_flatMap, sum_map_range]
  rw [htot]
  have h0mem : (0 : ℕ) ∈ Finset.range s := Finset.mem_range.mpr (by omega)
  rw [← Finset.add_sum_erase _ _ h0mem]
  have htopmem : s - 1 ∈ (Finset.range s).erase 0 :=
    Finset.mem_erase.mpr ⟨by omega, Finset.mem_range.mpr (by omega)⟩
  rw [← Finset.add_sum_erase _ _ htopmem]
  have hmid : ∀ i ∈ ((Finset.range s).erase 0).erase (s - 1),
      (sphereRowFaces s i).length = 2 * (s * 2) := by
    intro i hi
    have hne1 : i ≠ s - 1 := (Finset.mem_erase.mp hi).1
    have hne0 : i ≠ 0 := (Finset.mem_erase.mp (Finset.mem_erase.mp hi).2).1
    rw [sphereRowFaces_length, if_neg (by omega)]
    ring
  rw [Finset.sum_congr rfl hmid, Finset.sum_const, smul_eq_mul]
  have hcard : (((Finset.range s).erase 0).erase (s - 1)).card = s - 2 := by
    rw [Finset.card_erase_of_mem htopmem, Finset.card_erase_of_mem h0mem,
      Finset.card_range]
    omega
  rw [hcard, hrow0, hrowtop]
  have hexp : s * 2 + (s * 2 + (s - 2) * (2 * (s * 2))) =
      2 * (s * 2) * (s - 2) + 2 * (s * 2) := by
    generalize s - 2 = t
    ring
  exact hexp

/-- Witness for the amended claim C3 at `subdivisions = 3`. -/
theorem sphere_face_count_witness :
    2 ≤ 3 ∧
    ((sphereFaces 3).length = 2 * (3 * 2) * (3 - 2) + 2 * (3 * 2) ∧
      (sphereRowFaces 3 0).length = 3 * 2 ∧
      (sphereRowFaces 3 (3 - 1)).length = 3 * 2 ∧
      ∀ i, 0 < i → i < 3 - 1 → (sphereRowFaces 3 i).length = 2 * (3 * 2)) :=
  ⟨by decide, sphere_face_count 3 (by decide)⟩

/-- Claim C5, counterexample: the cylinder generator invoked with the invalid
subdivision count `0` and radius `1` raises no `ParameterError` at all — it
succeeds (the source returns `True`) and writes a degenerate mesh consisting
of the two cap centers and no faces. No mesh generator in
`scene_generator.py` raises `ParameterError`; the name does not occur in the
repository. -/
theorem cylinder_invalid_params_no_error :
    create_cylinder_obj 1 2 0 = some (cylinderVertices 1 2 0, []) ∧
    (cylinderVertices 1 2 0).length = 2 := ⟨rfl, rfl⟩

/-- Claim C5, amended: invalid mesh parameters do not fail fast with a
`ParameterError`; every exception is caught and turned into a boolean
return. For any `subdivisions < 1` (and any radius and height, including
non-positive ones) the cylinder generator succeeds and emits a degenerate
two-vertex, zero-face mesh; the sphere generator with `subdivisions = 0`
hits a `ZeroDivisionError` that is caught, returning failure without
emitting a file, while every non-zero subdivision count (and any radius,
including non-positive ones) succeeds and emits the mesh. -/
theorem mesh_generators_no_parameter_error (radius height : ℝ) (s : ℤ)
    (hs : s < 1) :
    (create_cylinder_obj radius height s =
      some (cylinderVertices radius height s, cylinderFaces s) ∧
      cylinderFaces s = [] ∧
      (cylinderVertices radius height s).length = 2) ∧
    create_sphere_obj radius 0 = none ∧
    (∀ s' : ℤ, s' ≠ 0 → create_sphere_obj radius s' =
      some (sphereVertices radius s'.toNat, sphereFaces s'.toNat)) := by
  have hn : s.toNat = 0 := by omega
  refine ⟨⟨rfl, ?_, ?_⟩, rfl, fun s' hs' => ?_⟩
  · simp [cylinderFaces, hn]
  · simp [cylinderVertices, hn]
  · unfold create_sphere_obj
    rw [if_neg hs']

/-- Witness for the amended claim C5 at radius `0` (non-positive) and
subdivision count `0`. -/
theorem mesh_generators_no_parameter_error_witness :
    (0 : ℤ) < 1 ∧
    (((create_cylinder_obj 0 2 0 =
        some (cylinderVertices 0 2 0, cylinderFaces 0) ∧
        cylinderFaces 0 = [] ∧
        (cylinderVertices 0 2 0).length = 2) ∧
      create_sphere_obj 0 0 = none ∧
      (∀ s' : ℤ, s' ≠ 0 → create_sphere_obj 0 s' =
        some (sphereVertices 0 s'.toNat, sphereFaces s'.toNat)))) :=
  ⟨by decide, mesh_generators_no_parameter_error 0 2 0 (by decide)⟩

/-- Claim C8: for every mesh generator (sphere, cube, plane, cylinder,
torus) with valid parameters (at least one subdivision in each direction),
every 1-based vertex index of every emitted face lies in
`[1, vertex_count]`, where `vertex_count` is the length of the vertex list
the generator emitted. -/
theorem all_face_indices_in_range
    (radius size width height cheight Rmaj rmin : ℝ)
    (ssph spl Mt mt : ℕ) (scyl : ℤ)
    (h1 : 1 ≤ ssph) (h2 : 1 ≤ spl) (h3 : 1 ≤ scyl) (h4 : 1 ≤ Mt) (h5 : 1 ≤ mt) :
    (∀ f ∈ sphereFaces ssph, faceIdxOk (sphereVertices radius ssph).length f) ∧
    (∀ f ∈ cubeFaces, faceIdxOk (cubeVertices size).length f) ∧
    (∀ f ∈ planeFaces spl, faceIdxOk (planeVertices width height spl).length f) ∧
    (∀ f ∈ cylinderFaces scyl,
      faceIdxOk (cylinderVertices radius cheight scyl).length f) ∧
    (∀ f ∈ torusFaces Mt mt, faceIdxOk (torusVertices Rmaj rmin Mt mt).length f) := by
  refine ⟨?_, ?_, ?_, ?_, ?_⟩
  · intro f hf
    rw [sphereVertices_length]
    simp only [sphereFaces, sphereRowFaces, List.mem_flatMap, List.mem_range] at hf
    obtain ⟨i, hi, j, hj, hf⟩ := hf
    have hn : 0 < ssph * 2 := by omega
    have hmj : (j + 1) % (ssph * 2) < ssph * 2 := Nat.mod_lt _ hn
    split_ifs at hf with hi0 hitop
    · simp only [List.mem_singleton] at hf
      subst hf
      simp only [faceIdxOk]
      refine ⟨by omega, ?_, by omega, ?_, by omega, ?_⟩
      · linarith [quad_index_le i (ssph + 1) (ssph * 2) j (by omega) hj]
      · linarith [quad_index_le (i + 1) (ssph + 1) (ssph * 2)
          ((j + 1) % (ssph * 2)) (by omega) hmj]
      · linarith [quad_index_le (i + 1) (ssph + 1) (ssph * 2) j (by omega) hj]
    · simp only [List.mem_singleton] at hf
      subst hf
      simp only [faceIdxOk]
      refine ⟨by omega, ?_, by omega, ?_, by omega, ?_⟩
      · linarith [quad_index_le i (ssph + 1) (ssph * 2) j (by omega) hj]
      · linarith [quad_index_le i (ssph + 1) (ssph * 2)
          ((j + 1) % (ssph * 2)) (by omega) hmj]
      · linarith [quad_index_le (i + 1) (ssph + 1) (ssph * 2) j (by omega) hj]
    · simp only [List.mem_cons, List.mem_singleton, List.not_mem_nil, or_false] at hf
      rcases hf with rfl | rfl
      · simp only [faceIdxOk]
        refine ⟨by omega, ?_, by omega, ?_, by omega, ?_⟩
        · linarith [quad_index_le i (ssph + 1) (ssph * 2) j (by omega) hj]
        · linarith [quad_index_le i (ssph + 1) (ssph * 2)
            ((j + 1) % (ssph * 2)) (by omega) hmj]
        · linarith [quad_index_le (i + 1) (ssph + 1) (ssph * 2) j (by omega) hj]
      · simp only [faceIdxOk]
        refine ⟨by omega, ?_, by omega, ?_, by omega, ?_⟩
        · linarith [quad_index_le i (ssph + 1) (ssph * 2)
            ((j + 1) % (ssph * 2)) (by omega) hmj]
        · linarith [quad_index_le (i + 1) (ssph + 1) (ssph * 2)
            ((j + 1) % (ssph * 2)) (by omega) hmj]
        · linarith [quad_index_le (i + 1) (ssph + 1) (ssph * 2) j (by omega) hj]
  · intro f hf
    have h8 : (cubeVertices size).length = 8 := rfl
    rw [h8]
    revert f hf
    decide
  · intro f hf
    rw [planeVertices_length]
    simp only [planeFaces, List.mem_flatMap, List.mem_range, List.mem_cons,
      List.mem_singleton, List.not_mem_nil, or_false] at hf
    obtain ⟨i, hi, j, hj, hf⟩ := hf
    rcases hf with rfl | rfl
    · simp only [faceIdxOk]
      refine ⟨by omega, ?_, by omega, ?_, by omega, ?_⟩
      · linarith [quad_index_le i (spl + 1) (spl + 1) j (by omega) (by omega)]
      · linarith [quad_index_le i (spl + 1) (spl + 1) (j + 1) (by omega) (by omega)]
      · linarith [quad_index_le (i + 1) (spl + 1) (spl + 1) j (by omega) (by omega)]
    · simp only [faceIdxOk]
      refine ⟨by omega, ?_, by omega, ?_, by omega, ?_⟩
      · linarith [quad_index_le i (spl + 1) (spl + 1) (j + 1) (by omega) (by omega)]
      · linarith [quad_index_le (i + 1) (spl + 1) (spl + 1) (j + 1) (by omega) (by omega)]
      · linarith [quad_index_le (i + 1) (spl + 1) (spl + 1) j (by omega) (by omega)]
  · intro f hf
    rw [cylinderVertices_length]
    have hn : 0 < scyl.toNat := by omega
    simp only [cylinderFaces, List.mem_append, List.mem_map, List.mem_flatMap,
      List.mem_range, List.mem_cons, List.mem_singleton, List.not_mem_nil, or_false] at hf
    rcases hf with (⟨i, hi, rfl⟩ | ⟨i, hi, rfl⟩) | ⟨i, hi, hf⟩
    · have hmi : (i + 1) % scyl.toNat < scyl.toNat := Nat.mod_lt _ hn
      simp only [faceIdxOk]
      omega
    · have hmi : (i + 1) % scyl.toNat < scyl.toNat := Nat.mod_lt _ hn
      simp only [faceIdxOk]
      omega
    · have hmi : (i + 1) % scyl.toNat < scyl.toNat := Nat.mod_lt _ hn
      rcases hf with rfl | rfl <;> simp only [faceIdxOk] <;> omega
  · intro f hf
    rw [torusVertices_length]
    simp only [torusFaces, List.mem_flatMap, List.mem_range, List.mem_cons,
      List.mem_singleton, List.not_mem_nil, or_false] at hf
    obtain ⟨i, hi, j, hj, hf⟩ := hf
    have hmi : (i + 1) % Mt < Mt := Nat.mod_lt _ (by omega)
    have hmj : (j + 1) % mt < mt := Nat.mod_lt _ (by omega)
    rcases hf with rfl | rfl
    · simp only [faceIdxOk]
      refine ⟨by omega, ?_, by omega, ?_, by omega, ?_⟩
      · linarith [quad_index_le i Mt mt j hi hj]
      · linarith [quad_index_le i Mt mt ((j + 1) % mt) hi hmj]
      · linarith [quad_index_le ((i + 1) % Mt) Mt mt j hmi hj]
    · simp only [faceIdxOk]
      refine ⟨by omega, ?_, by omega, ?_, by omega, ?_⟩
      · linarith [quad_index_le i Mt mt ((j + 1) % mt) hi hmj]
      · linarith [quad_index_le ((i + 1) % Mt) Mt mt ((j + 1) % mt) hmi hmj]
      · linarith [quad_index_le ((i + 1) % Mt) Mt mt j hmi hj]

/-- Witness for claim C8 with one subdivision everywhere and unit sizes. -/
theorem all_face_indices_in_range_witness :
    (1 ≤ 1 ∧ (1 : ℤ) ≤ 1) ∧
    ((∀ f ∈ sphereFaces 1, faceIdxOk (sphereVertices 1 1).length f) ∧
      (∀ f ∈ cubeFaces, faceIdxOk (cubeVertices 1).length f) ∧
      (∀ f ∈ planeFaces 1, faceIdxOk (planeVertices 2 2 1).length f) ∧
      (∀ f ∈ cylinderFaces 1, faceIdxOk (cylinderVertices 1 2 1).length f) ∧
      (∀ f ∈ torusFaces 1 1, faceIdxOk (torusVertices 1 1 1 1).length f)) :=
  ⟨⟨by decide, by decide⟩,
    all_face_indices_in_range 1 1 2 2 2 1 1 1 1 1 1 1 (by decide) (by decide)
      (by decide) (by decide) (by decide)⟩

end PhotometricStereo
